import Mathlib

/-!
Shallow embedding of `src/output-json-flowstart.c` (Suricata JSON flow-start
log module) and proofs about its behaviour.

External collaborators (flow/packet structures, the JSON header builder,
the buffered sink write, the log-file context) are not part of this
repository snapshot; they are modelled from the spec at their interface
boundary, as records and oracle parameters.  Everything else follows the
C source line by line: allocation failures become Boolean oracles, pointer
frees and file opens become events in an explicit trace, and the global
`EngineModeIsIPS()` becomes a Boolean parameter.
-/

namespace Flowstart

/-- Modelled from the spec: `FlowView` is external (flow.h is not in the
snapshot); it exposes the two per-direction packet counters the evaluator
reads (`todstpktcnt`, `tosrcpktcnt`). -/
structure Flow where
  todstpktcnt : Nat
  tosrcpktcnt : Nat
  deriving DecidableEq, Repr

/-- Modelled from the spec: `PacketView` is external (decode.h is not in the
snapshot); it exposes the pseudo-packet flag tested by `PKT_IS_PSEUDOPKT`,
the nullable owning-flow pointer, and the NFQ ingress interface index
`nfq_v.ifi`. -/
structure Packet where
  is_pseudo : Bool
  flow : Option Flow
  nfq_ifi : Nat
  deriving DecidableEq, Repr

/-- `JsonFlowstartLogCondition` from the source, with the process-wide
`EngineModeIsIPS()` query passed in as the Boolean `engineIPS`. -/
def JsonFlowstartLogCondition (engineIPS : Bool) (p : Packet) : Bool :=
  if !engineIPS then false
  else if p.is_pseudo then false
  else match p.flow with
    | none => false
    | some f => f.todstpktcnt + f.tosrcpktcnt == 1

/-- Sum of the two per-direction packet counters of a flow. -/
def flowTotal (f : Flow) : Nat :=
  f.todstpktcnt + f.tosrcpktcnt

/-- A real (non-pseudo) wire packet carrying flow state `f`. -/
def mkRealPacket (f : Flow) : Packet :=
  { is_pseudo := false, flow := some f, nfq_ifi := 0 }

/-- Claim C1: the condition evaluator returns true iff the engine is in
inline (IPS) mode, the packet is not a pseudo packet, the packet has a
non-null flow, and the flow's to-destination plus to-source packet
counters sum to exactly 1; in every other case it returns false. -/
theorem C1_condition_iff (engineIPS : Bool) (p : Packet) :
    JsonFlowstartLogCondition engineIPS p = true ↔
      engineIPS = true ∧ p.is_pseudo = false ∧
        ∃ f, p.flow = some f ∧ f.todstpktcnt + f.tosrcpktcnt = 1 := by
  unfold JsonFlowstartLogCondition
  cases engineIPS <;> cases hps : p.is_pseudo <;> cases hf : p.flow <;>
    simp [hps, hf]

/-- Claim C10: a packet with a null flow reference makes the evaluator
return false; in the embedding the counter access sits under the `some`
arm of the match on the nullable flow, so it is never reached when the
flow is absent, and the evaluator is total over packets with a nullable
flow. -/
theorem C10_null_flow_returns_false (engineIPS : Bool) (p : Packet)
    (h : p.flow = none) :
    JsonFlowstartLogCondition engineIPS p = false := by
  unfold JsonFlowstartLogCondition
  cases engineIPS <;> cases hps : p.is_pseudo <;> simp [hps, h]

/-- Witness for C10 at a concrete packet with no flow. -/
theorem C10_witness :
    JsonFlowstartLogCondition true ⟨false, none, 0⟩ = false :=
  C10_null_flow_returns_false true ⟨false, none, 0⟩ rfl

/-- Per-direction monotone non-decrease of the flow counters between two
successive packet deliveries, as the claim's hypothesis states it. -/
def countersNondecreasing (a b : Flow) : Prop :=
  a.todstpktcnt ≤ b.todstpktcnt ∧ a.tosrcpktcnt ≤ b.tosrcpktcnt

instance (a b : Flow) : Decidable (countersNondecreasing a b) := by
  unfold countersNondecreasing; infer_instance

/-- Counterexample to claim C5 as stated: non-decreasing counters allow the
flow total to stay at 1 across two delivered packets, and then the
evaluator fires on the second (later) packet of the flow as well, not only
on the very first one. -/
theorem C5_counterexample :
    (List.Chain' countersNondecreasing [⟨1, 0⟩, ⟨1, 0⟩] ∧
      flowTotal ⟨1, 0⟩ = 1) ∧
    ([(⟨1, 0⟩ : Flow), ⟨1, 0⟩].map
        (fun f => JsonFlowstartLogCondition true (mkRealPacket f))
      = [true, true]) := by
  refine ⟨⟨?_, rfl⟩, rfl⟩
  simp [List.chain'_cons, countersNondecreasing]

lemma totals_strictly_above_head (f : Flow) (fs : List Flow)
    (h : List.Chain' (fun a b => flowTotal a < flowTotal b) (f :: fs)) :
    ∀ g ∈ fs, flowTotal f < flowTotal g := by
  induction fs generalizing f with
  | nil => intro g hg; cases hg
  | cons b bs ih =>
    rw [List.chain'_cons] at h
    intro g hg
    rcases List.mem_cons.mp hg with hg | hg
    · exact hg ▸ h.1
    · exact lt_trans h.1 (ih b h.2 g hg)

/-- Claim C5 amended: in inline mode, over the real (non-pseudo) packets of
one flow whose total packet count strictly increases with each delivered
packet and starts at 1, the evaluator returns true on the first packet and
false on every later one. -/
theorem C5_first_packet_only (f : Flow) (fs : List Flow)
    (hhead : flowTotal f = 1)
    (hmono : List.Chain' (fun a b => flowTotal a < flowTotal b) (f :: fs)) :
    (f :: fs).map (fun g => JsonFlowstartLogCondition true (mkRealPacket g))
      = true :: List.replicate fs.length false := by
  have hgt := totals_strictly_above_head f fs hmono
  simp only [List.map_cons, List.cons.injEq]
  refine ⟨?_, ?_⟩
  · unfold JsonFlowstartLogCondition mkRealPacket
    simpa [flowTotal] using hhead
  · rw [List.eq_replicate_iff]
    refine ⟨by simp, ?_⟩
    intro b hb
    rcases List.mem_map.mp hb with ⟨g, hg, hgb⟩
    have h2 : flowTotal g ≠ 1 := by
      have := hgt g hg
      omega
    subst hgb
    unfold JsonFlowstartLogCondition mkRealPacket
    simpa [flowTotal] using h2

/-- Witness for the amended C5 at a concrete two-packet flow trace. -/
theorem C5_witness :
    ([(⟨1, 0⟩ : Flow), ⟨1, 1⟩].map
        (fun g => JsonFlowstartLogCondition true (mkRealPacket g))
      = true :: List.replicate 1 false) :=
  C5_first_packet_only ⟨1, 0⟩ [⟨1, 1⟩] (by decide)
    (by simp [List.chain'_cons, flowTotal])

/-! Emission path: `FlowstartLogJSON` and `JsonFlowstartLogger`. -/

/-- Modelled from the spec: the external sink context (`LogFileCtx` from
util-logopenfile, not in the snapshot), identified by an id. -/
structure LogFileCtx where
  id : Nat
  deriving DecidableEq, Repr

/-- `JsonFlowstartOutputCtx` from the source: a (nullable) reference to the
sink context. -/
structure JsonFlowstartOutputCtx where
  file_ctx : Option LogFileCtx
  deriving DecidableEq, Repr

/-- Modelled from the spec: `MemBuffer` (util-buffer, not in the snapshot)
is a growable byte buffer with an allocated capacity `size` and a used
length `offset`. -/
structure MemBuffer where
  size : Nat
  offset : Nat
  deriving DecidableEq, Repr

/-- Modelled from the spec: `MemBufferCreateNew` allocates a buffer of the
given capacity with nothing written yet. -/
def MemBufferCreateNew (size : Nat) : MemBuffer :=
  { size := size, offset := 0 }

/-- Modelled from the spec: `MemBufferReset` logically truncates the buffer
(used length back to 0), keeping the allocated capacity. -/
def MemBufferReset (b : MemBuffer) : MemBuffer :=
  { b with offset := 0 }

/-- `JsonFlowstartLogThread` from the source: the per-worker state, a
(nullable) module-context reference plus the scratch buffer. -/
structure JsonFlowstartLogThread where
  flowstart_ctx : Option JsonFlowstartOutputCtx
  buffer : MemBuffer
  deriving DecidableEq, Repr

/-- Modelled from the spec: the ephemeral event record built by the
external header builder — the `"flow_start"` type tag plus the optional
ingress-interface name attached by this module. -/
structure EventRecord where
  event_type : String
  in_dev : Option String
  deriving DecidableEq, Repr

/-- Modelled from the spec: `CreateJSONHeader` (output-json, not in the
snapshot) builds the standard event header tagged with the given event
type, or fails (returns null) under allocation pressure; the failure is an
oracle Boolean here. -/
def CreateJSONHeader (hdrOk : Bool) (event_type : String) :
    Option EventRecord :=
  if hdrOk then some { event_type := event_type, in_dev := none } else none

/-- Serialized length of a record, standing in for the byte count the JSON
dump produces. -/
def recordLen (js : EventRecord) : Nat :=
  js.event_type.length + (match js.in_dev with | some s => s.length | none => 0)

/-- Modelled from the spec: `OutputJSONBuffer` (output-json, not in the
snapshot) serializes the record through the scratch buffer into the sink,
expanding the buffer when the record needs more room, and reports the
sink's write status (an oracle integer here, negative on I/O failure). -/
def OutputJSONBuffer (writeResult : Int) (js : EventRecord) (buffer : MemBuffer) :
    Int × MemBuffer :=
  (writeResult,
    { size := max buffer.size (recordLen js + 1), offset := recordLen js + 1 })

/-- `TM_ECODE_OK`, the success value of the `TmEcode` enum, as the C `int`
returned by `FlowstartLogJSON`. -/
def TM_ECODE_OK : Int := 0

/-- Events of one emission call, in program order: the scratch-buffer reset
(recording the buffer before and after) and the sink write (recording the
record and the buffer state handed to the serializer). -/
inductive EmitEv where
  | reset (before after : MemBuffer)
  | write (rec : EventRecord) (bufAtWrite : MemBuffer)
  deriving DecidableEq, Repr

/-- `FlowstartLogJSON` from the source: build the header (abort silently
with success if that fails), attach `in_dev` when the packet has a
non-zero NFQ ingress interface index (`ifname` is the external
`if_indextoname` result), reset the scratch buffer, write through the
sink, discard the write status, and return `TM_ECODE_OK`.  The returned
list is the trace of buffer/sink events of this call. -/
def FlowstartLogJSON (hdrOk : Bool) (ifname : String) (writeResult : Int)
    (aft : JsonFlowstartLogThread) (p : Packet) :
    Int × JsonFlowstartLogThread × List EmitEv :=
  match CreateJSONHeader hdrOk "flow_start" with
  | none => (TM_ECODE_OK, aft, [])
  | some js =>
    let js1 := if p.nfq_ifi ≠ 0 then { js with in_dev := some ifname } else js
    let buf1 := MemBufferReset aft.buffer
    let w := OutputJSONBuffer writeResult js1 buf1
    (TM_ECODE_OK, { aft with buffer := w.2 },
      [EmitEv.reset aft.buffer buf1, EmitEv.write js1 buf1])

/-- `JsonFlowstartLogger` from the source: call `FlowstartLogJSON` and map
a negative result to -1, anything else to 0. -/
def JsonFlowstartLogger (hdrOk : Bool) (ifname : String) (writeResult : Int)
    (td : JsonFlowstartLogThread) (p : Packet) :
    Int × JsonFlowstartLogThread × List EmitEv :=
  let r := FlowstartLogJSON hdrOk ifname writeResult td p
  (if r.1 < 0 then -1 else 0, r.2.1, r.2.2)

/-- Claim C3: when header construction fails, `FlowstartLogJSON` writes
nothing to the sink, leaves the thread state (including the scratch
buffer) untouched, and still returns `TM_ECODE_OK`; later packets then
start from the same state. -/
theorem C3_header_failure_silent (ifname : String) (writeResult : Int)
    (aft : JsonFlowstartLogThread) (p : Packet) :
    FlowstartLogJSON false ifname writeResult aft p = (TM_ECODE_OK, aft, []) :=
  rfl

/-- Counterexample to claim C4 as stated: with the sink write reporting an
I/O failure (status -1), `JsonFlowstartLogger` still returns 0, not -1;
the write status is discarded inside `FlowstartLogJSON`. -/
theorem C4_counterexample :
    (JsonFlowstartLogger true "eth0" (-1)
        ⟨some ⟨some ⟨0⟩⟩, ⟨65535, 0⟩⟩ ⟨false, some ⟨1, 0⟩, 0⟩).1 = 0 ∧
      (0 : Int) ≠ -1 := by
  exact ⟨rfl, by decide⟩

/-- Claim C4 amended: `JsonFlowstartLogger` returns 0 on every call,
including when the sink write fails — `FlowstartLogJSON` always returns
`TM_ECODE_OK` because the write status is discarded, so the negative
branch of the logger is unreachable. -/
theorem C4_logger_always_zero (hdrOk : Bool) (ifname : String)
    (writeResult : Int) (td : JsonFlowstartLogThread) (p : Packet) :
    (JsonFlowstartLogger hdrOk ifname writeResult td p).1 = 0 := by
  unfold JsonFlowstartLogger FlowstartLogJSON CreateJSONHeader
  cases hdrOk <;> simp [TM_ECODE_OK]

/-- Claim C9: on every emission (header built successfully), the scratch
buffer handed to the serializer is the logical reset of the thread's
buffer — used length 0, capacity exactly what it was — and the reset event
precedes the write event in the call's trace. -/
theorem C9_reset_before_write (ifname : String) (writeResult : Int)
    (aft : JsonFlowstartLogThread) (p : Packet) :
    (MemBufferReset aft.buffer).offset = 0 ∧
    (MemBufferReset aft.buffer).size = aft.buffer.size ∧
    ∃ rec, (FlowstartLogJSON true ifname writeResult aft p).2.2
        = [EmitEv.reset aft.buffer (MemBufferReset aft.buffer),
           EmitEv.write rec (MemBufferReset aft.buffer)] :=
  ⟨rfl, rfl, _, rfl⟩

/-! Thread-local state lifecycle: `JsonFlowstartLogThreadInit` and
`JsonFlowstartLogThreadDeinit`. -/

/-- The `TmEcode` status enum (only the values this module uses). -/
inductive TmEcode where
  | ok
  | failed
  deriving DecidableEq, Repr

/-- Which destructor the constructor bound into the output context's
`DeInit` function pointer. -/
inductive DeinitKind where
  | standalone
  | sub
  deriving DecidableEq, Repr

/-- `OutputCtx` from output.h (modelled at its interface boundary): the
opaque `data` pointer — here always a `JsonFlowstartOutputCtx`, possibly
null — and the bound `DeInit` callback, as a tag. -/
structure OutputCtx where
  data : Option JsonFlowstartOutputCtx
  DeInit : DeinitKind
  deriving DecidableEq, Repr

/-- Allocation/free events of the thread-state lifecycle: the state struct
(`aft`), its scratch buffer, and the `memset 0` of the state on deinit. -/
inductive TEv where
  | allocAft
  | freeAft
  | allocBuf
  | freeBuf
  | zeroAft
  deriving DecidableEq, Repr

/-- `OUTPUT_BUFFER_SIZE` from the source. -/
def OUTPUT_BUFFER_SIZE : Nat := 65535

/-- `JsonFlowstartLogThreadInit` from the source, with the two fallible
allocations (`SCMalloc` of the state, `MemBufferCreateNew`) as oracle
Booleans: allocate and zero the state; fail if `initdata` is null (freeing
the state); allocate the scratch buffer (freeing the state on failure);
store the context reference from `initdata->data`.  The trace records
which pieces were allocated and freed. -/
def JsonFlowstartLogThreadInit (aftAllocOk bufAllocOk : Bool)
    (initdata : Option OutputCtx) :
    TmEcode × Option JsonFlowstartLogThread × List TEv :=
  if !aftAllocOk then (TmEcode.failed, none, [])
  else
    match initdata with
    | none => (TmEcode.failed, none, [TEv.allocAft, TEv.freeAft])
    | some oc =>
      if !bufAllocOk then (TmEcode.failed, none, [TEv.allocAft, TEv.freeAft])
      else
        (TmEcode.ok,
          some { flowstart_ctx := oc.data,
                 buffer := MemBufferCreateNew OUTPUT_BUFFER_SIZE },
          [TEv.allocAft, TEv.allocBuf])

/-- `JsonFlowstartLogThreadDeinit` from the source: a no-op on a null
handle; otherwise free the buffer, zero the state, free the state. -/
def JsonFlowstartLogThreadDeinit (data : Option JsonFlowstartLogThread) :
    TmEcode × List TEv :=
  match data with
  | none => (TmEcode.ok, [])
  | some _ => (TmEcode.ok, [TEv.freeBuf, TEv.zeroAft, TEv.freeAft])

/-- Claim C6: thread init fails exactly when the state allocation fails,
the buffer allocation fails, or `initdata` is null; on success the state
holds a 65535-byte empty scratch buffer and the supplied context's data
reference; on failure no state is returned and every allocated piece was
freed (the alloc/free trace balances). -/
theorem C6_thread_init (aftAllocOk bufAllocOk : Bool)
    (initdata : Option OutputCtx) :
    ((JsonFlowstartLogThreadInit aftAllocOk bufAllocOk initdata).1 = TmEcode.failed
        ↔ (aftAllocOk = false ∨ bufAllocOk = false ∨ initdata = none)) ∧
    ((JsonFlowstartLogThreadInit aftAllocOk bufAllocOk initdata).1 = TmEcode.ok →
        ∃ oc, initdata = some oc ∧
          (JsonFlowstartLogThreadInit aftAllocOk bufAllocOk initdata).2.1
            = some { flowstart_ctx := oc.data,
                     buffer := { size := 65535, offset := 0 } }) ∧
    ((JsonFlowstartLogThreadInit aftAllocOk bufAllocOk initdata).1 = TmEcode.failed →
        (JsonFlowstartLogThreadInit aftAllocOk bufAllocOk initdata).2.1 = none ∧
        ((JsonFlowstartLogThreadInit aftAllocOk bufAllocOk initdata).2.2.count
            TEv.allocAft
          = (JsonFlowstartLogThreadInit aftAllocOk bufAllocOk initdata).2.2.count
            TEv.freeAft) ∧
        ((JsonFlowstartLogThreadInit aftAllocOk bufAllocOk initdata).2.2.count
            TEv.allocBuf
          = (JsonFlowstartLogThreadInit aftAllocOk bufAllocOk initdata).2.2.count
            TEv.freeBuf)) := by
  cases aftAllocOk <;> cases bufAllocOk <;> cases initdata <;>
    simp [JsonFlowstartLogThreadInit, MemBufferCreateNew, OUTPUT_BUFFER_SIZE]

/-- Witness for C6 at the all-allocations-succeed oracle with a concrete
module context. -/
theorem C6_witness :
    ((JsonFlowstartLogThreadInit true true
        (some { data := some { file_ctx := some { id := 0 } },
                DeInit := DeinitKind.standalone })).1 = TmEcode.failed
        ↔ (true = false ∨ true = false ∨
            (some { data := some { file_ctx := some { id := 0 } },
                    DeInit := DeinitKind.standalone } : Option OutputCtx)
              = none)) ∧
    ((JsonFlowstartLogThreadInit true true
        (some { data := some { file_ctx := some { id := 0 } },
                DeInit := DeinitKind.standalone })).1 = TmEcode.ok →
        ∃ oc, (some { data := some { file_ctx := some { id := 0 } },
                      DeInit := DeinitKind.standalone } : Option OutputCtx)
            = some oc ∧
          (JsonFlowstartLogThreadInit true true
              (some { data := some { file_ctx := some { id := 0 } },
                      DeInit := DeinitKind.standalone })).2.1
            = some { flowstart_ctx := oc.data,
                     buffer := { size := 65535, offset := 0 } }) ∧
    ((JsonFlowstartLogThreadInit true true
        (some { data := some { file_ctx := some { id := 0 } },
                DeInit := DeinitKind.standalone })).1 = TmEcode.failed →
        (JsonFlowstartLogThreadInit true true
            (some { data := some { file_ctx := some { id := 0 } },
                    DeInit := DeinitKind.standalone })).2.1 = none ∧
        ((JsonFlowstartLogThreadInit true true
            (some { data := some { file_ctx := some { id := 0 } },
                    DeInit := DeinitKind.standalone })).2.2.count TEv.allocAft
          = (JsonFlowstartLogThreadInit true true
            (some { data := some { file_ctx := some { id := 0 } },
                    DeInit := DeinitKind.standalone })).2.2.count TEv.freeAft) ∧
        ((JsonFlowstartLogThreadInit true true
            (some { data := some { file_ctx := some { id := 0 } },
                    DeInit := DeinitKind.standalone })).2.2.count TEv.allocBuf
          = (JsonFlowstartLogThreadInit true true
            (some { data := some { file_ctx := some { id := 0 } },
                    DeInit := DeinitKind.standalone })).2.2.count TEv.freeBuf)) :=
  C6_thread_init true true
    (some { data := some { file_ctx := some { id := 0 } },
            DeInit := DeinitKind.standalone })

/-- Claim C7: thread deinit always returns the success status; on a null
handle it does nothing; on a live state it frees the scratch buffer,
zeroes the state and frees it. -/
theorem C7_thread_deinit (data : Option JsonFlowstartLogThread) :
    (JsonFlowstartLogThreadDeinit data).1 = TmEcode.ok ∧
    (data = none → (JsonFlowstartLogThreadDeinit data).2 = []) ∧
    (∀ s, data = some s →
        (JsonFlowstartLogThreadDeinit data).2
          = [TEv.freeBuf, TEv.zeroAft, TEv.freeAft]) := by
  cases data <;> simp [JsonFlowstartLogThreadDeinit]

/-! Module-context lifecycle: the two constructors and the two
destructors, with every allocation, file open and free recorded in an
event trace. -/

/-- Allocation/free/open events of the module-context lifecycle. -/
inductive Ev where
  | allocFlowstartCtx
  | allocFileCtx
  | openFile (default_filename : String)
  | allocOutputCtx
  | freeFileCtx
  | freeFlowstartCtx
  | freeOutputCtx
  deriving DecidableEq, Repr

/-- `JsonFlowstartOutputCtxFree` from the source: on a non-null context,
free the sink context if present (`LogFileFreeCtx`), then free the
context struct itself. -/
def JsonFlowstartOutputCtxFree (flowstart_ctx : Option JsonFlowstartOutputCtx) :
    List Ev :=
  match flowstart_ctx with
  | none => []
  | some c =>
    (match c.file_ctx with
      | some _ => [Ev.freeFileCtx]
      | none => []) ++ [Ev.freeFlowstartCtx]

/-- `JsonFlowstartLogDeInitCtx` from the source (standalone destructor):
free the inner context through `JsonFlowstartOutputCtxFree` — which frees
the owned sink — then free the output context. -/
def JsonFlowstartLogDeInitCtx (output_ctx : OutputCtx) : List Ev :=
  JsonFlowstartOutputCtxFree output_ctx.data ++ [Ev.freeOutputCtx]

/-- `JsonFlowstartLogDeInitCtxSub` from the source (sub-module destructor):
free the inner context struct with a plain `SCFree` — never touching the
`file_ctx` it borrows from the parent — then free the output context. -/
def JsonFlowstartLogDeInitCtxSub (output_ctx : OutputCtx) : List Ev :=
  (match output_ctx.data with
    | some _ => [Ev.freeFlowstartCtx]
    | none => []) ++ [Ev.freeOutputCtx]

/-- `DEFAULT_LOG_FILENAME` from the source. -/
def DEFAULT_LOG_FILENAME : String := "flowstart.json"

/-- Modelled from the spec: `LogFileNewCtx` (util-logopenfile, not in the
snapshot) creates a fresh sink context; the id distinguishes instances. -/
def LogFileNewCtx (id : Nat) : LogFileCtx :=
  { id := id }

/-- `JsonFlowstartLogInitCtx` from the source (standalone constructor),
with the fallible external calls as oracles: `SCCalloc` of the inner
context, `LogFileNewCtx`, `SCConfLogOpenGeneric` (negative result means
the open failed; it receives `DEFAULT_LOG_FILENAME`), and `SCCalloc` of
the output context.  Each failure path frees what was built via
`JsonFlowstartOutputCtxFree` and returns null; success binds the owning
destructor. -/
def JsonFlowstartLogInitCtx (ctxAllocOk fileCtxAllocOk : Bool) (sinkId : Nat)
    (openResult : Int) (outputCtxAllocOk : Bool) :
    Option OutputCtx × List Ev :=
  if !ctxAllocOk then (none, [])
  else if !fileCtxAllocOk then
    (none, Ev.allocFlowstartCtx ::
      JsonFlowstartOutputCtxFree (some { file_ctx := none }))
  else
    let fc := LogFileNewCtx sinkId
    let opened := [Ev.allocFlowstartCtx, Ev.allocFileCtx,
      Ev.openFile DEFAULT_LOG_FILENAME]
    if openResult < 0 then
      (none, opened ++ JsonFlowstartOutputCtxFree (some { file_ctx := some fc }))
    else if !outputCtxAllocOk then
      (none, opened ++ JsonFlowstartOutputCtxFree (some { file_ctx := some fc }))
    else
      (some { data := some { file_ctx := some fc },
              DeInit := DeinitKind.standalone },
        opened ++ [Ev.allocOutputCtx])

/-- Modelled from the spec: `OutputJsonCtx` (output-json.h, not in the
snapshot), the parent multiplexing context whose sink the sub-module
borrows. -/
structure OutputJsonCtx where
  file_ctx : LogFileCtx
  deriving DecidableEq, Repr

/-- `JsonFlowstartLogInitCtxSub` from the source (sub-module constructor):
allocate the inner context and the output context (freeing the former if
the latter fails — its `file_ctx` is still null at that point), copy the
parent's sink reference, and bind the non-owning destructor.  The `ojc`
parameter is the parent context's data, already cast. -/
def JsonFlowstartLogInitCtxSub (ctxAllocOk outputCtxAllocOk : Bool)
    (ojc : OutputJsonCtx) : Option OutputCtx × List Ev :=
  if !ctxAllocOk then (none, [])
  else if !outputCtxAllocOk then
    (none, Ev.allocFlowstartCtx ::
      JsonFlowstartOutputCtxFree (some { file_ctx := none }))
  else
    (some { data := some { file_ctx := some ojc.file_ctx },
            DeInit := DeinitKind.sub },
      [Ev.allocFlowstartCtx, Ev.allocOutputCtx])

lemma initCtx_success_shape (ctxAllocOk fileCtxAllocOk : Bool) (sinkId : Nat)
    (openResult : Int) (outputCtxAllocOk : Bool) (ctx : OutputCtx)
    (tr : List Ev)
    (h : JsonFlowstartLogInitCtx ctxAllocOk fileCtxAllocOk sinkId openResult
        outputCtxAllocOk = (some ctx, tr)) :
    ctx = { data := some { file_ctx := some { id := sinkId } },
            DeInit := DeinitKind.standalone } := by
  unfold JsonFlowstartLogInitCtx at h
  split_ifs at h <;> simp_all [LogFileNewCtx]

lemma initCtxSub_success_shape (ctxAllocOk outputCtxAllocOk : Bool)
    (ojc : OutputJsonCtx) (ctx : OutputCtx) (tr : List Ev)
    (h : JsonFlowstartLogInitCtxSub ctxAllocOk outputCtxAllocOk ojc
        = (some ctx, tr)) :
    ctx = { data := some { file_ctx := some ojc.file_ctx },
            DeInit := DeinitKind.sub } := by
  unfold JsonFlowstartLogInitCtxSub at h
  split_ifs at h <;> simp_all

/-- Claim C2: destroying a context built by the standalone constructor
frees the sink exactly once, while destroying a context built by the
sub-module constructor never frees the (parent-owned) sink. -/
theorem C2_deinit_sink_ownership (ctxAllocOk fileCtxAllocOk : Bool)
    (sinkId : Nat) (openResult : Int) (outputCtxAllocOk : Bool)
    (ctxAllocOk2 outputCtxAllocOk2 : Bool) (ojc : OutputJsonCtx)
    (ctx ctxSub : OutputCtx) (tr trSub : List Ev)
    (h1 : JsonFlowstartLogInitCtx ctxAllocOk fileCtxAllocOk sinkId openResult
        outputCtxAllocOk = (some ctx, tr))
    (h2 : JsonFlowstartLogInitCtxSub ctxAllocOk2 outputCtxAllocOk2 ojc
        = (some ctxSub, trSub)) :
    (JsonFlowstartLogDeInitCtx ctx).count Ev.freeFileCtx = 1 ∧
    (JsonFlowstartLogDeInitCtxSub ctxSub).count Ev.freeFileCtx = 0 := by
  rw [initCtx_success_shape _ _ _ _ _ _ _ h1,
    initCtxSub_success_shape _ _ _ _ _ h2]
  exact ⟨rfl, rfl⟩

/-- Witness for C2: both constructors succeed on the all-allocations-good
oracle, and the resulting destructor traces free the sink once
(standalone) and never (sub-module). -/
theorem C2_witness :
    (JsonFlowstartLogDeInitCtx
        { data := some { file_ctx := some { id := 0 } },
          DeInit := DeinitKind.standalone }).count Ev.freeFileCtx = 1 ∧
    (JsonFlowstartLogDeInitCtxSub
        { data := some { file_ctx := some { id := 5 } },
          DeInit := DeinitKind.sub }).count Ev.freeFileCtx = 0 :=
  C2_deinit_sink_ownership true true 0 0 true true true { file_ctx := { id := 5 } }
    _ _ _ _ rfl rfl

/-- Claim C8: the standalone constructor hands the open primitive the
default filename `"flowstart.json"`; it returns null exactly when one of
the four fallible steps fails, and then the alloc/free trace balances for
every resource (nothing leaks); on success the context holds a non-null
sink and is bound to the owning (standalone) destructor, and the open
with the default filename happened. -/
theorem C8_init_ctx (ctxAllocOk fileCtxAllocOk : Bool) (sinkId : Nat)
    (openResult : Int) (outputCtxAllocOk : Bool) :
    (∀ n, Ev.openFile n ∈ (JsonFlowstartLogInitCtx ctxAllocOk fileCtxAllocOk
        sinkId openResult outputCtxAllocOk).2 → n = DEFAULT_LOG_FILENAME) ∧
    ((JsonFlowstartLogInitCtx ctxAllocOk fileCtxAllocOk sinkId openResult
        outputCtxAllocOk).1 = none
      ↔ (ctxAllocOk = false ∨ fileCtxAllocOk = false ∨ openResult < 0 ∨
          outputCtxAllocOk = false)) ∧
    ((JsonFlowstartLogInitCtx ctxAllocOk fileCtxAllocOk sinkId openResult
        outputCtxAllocOk).1 = none →
      ((JsonFlowstartLogInitCtx ctxAllocOk fileCtxAllocOk sinkId openResult
          outputCtxAllocOk).2.count Ev.allocFlowstartCtx
        = (JsonFlowstartLogInitCtx ctxAllocOk fileCtxAllocOk sinkId openResult
          outputCtxAllocOk).2.count Ev.freeFlowstartCtx) ∧
      ((JsonFlowstartLogInitCtx ctxAllocOk fileCtxAllocOk sinkId openResult
          outputCtxAllocOk).2.count Ev.allocFileCtx
        = (JsonFlowstartLogInitCtx ctxAllocOk fileCtxAllocOk sinkId openResult
          outputCtxAllocOk).2.count Ev.freeFileCtx) ∧
      ((JsonFlowstartLogInitCtx ctxAllocOk fileCtxAllocOk sinkId openResult
          outputCtxAllocOk).2.count Ev.allocOutputCtx
        = (JsonFlowstartLogInitCtx ctxAllocOk fileCtxAllocOk sinkId openResult
          outputCtxAllocOk).2.count Ev.freeOutputCtx)) ∧
    (∀ ctx, (JsonFlowstartLogInitCtx ctxAllocOk fileCtxAllocOk sinkId openResult
        outputCtxAllocOk).1 = some ctx →
      ctx.DeInit = DeinitKind.standalone ∧
      ctx.data = some { file_ctx := some { id := sinkId } } ∧
      Ev.openFile DEFAULT_LOG_FILENAME ∈ (JsonFlowstartLogInitCtx ctxAllocOk
        fileCtxAllocOk sinkId openResult outputCtxAllocOk).2) := by
  cases ctxAllocOk <;> cases fileCtxAllocOk <;> cases outputCtxAllocOk <;>
    by_cases hopen : openResult < 0 <;>
    simp [JsonFlowstartLogInitCtx, JsonFlowstartOutputCtxFree, LogFileNewCtx,
      hopen]

end Flowstart
